import Mathlib

/-!
Shallow embedding of the BOLO voice-capture front end.

The embedding follows the repository's source:
* `src/types.ts` — data model (`SupportedLanguage`, `AppSettings`,
  `TranscriptionRecord`).
* `src/components/Console.tsx` (primary variant) — the recording session
  engine: constants, `initAudio`'s audio graph, the `mediaRecorder.onstop`
  handler, `startRecorderSession`, and the VAD/visualizer `updateLoop`.
* `src/components/Console.tsx` (second variant, after the document
  separator) — `startRecording`'s audio-conditioning graph
  (high-pass filter → compressor → analyser → destination).
* `App.tsx` — the multi-tier clipboard delivery function `secureCopy`.

Time (`Date.now()`) is modelled as an `Int` parameter threaded through each
handler; the transcription service (`processAudio`) is modelled by the
outcome it would produce if invoked (`ServiceOutcome`), since the handler
only branches on that outcome.
-/

namespace Bolo

/-- `SupportedLanguage` enum from `src/types.ts`. -/
inductive SupportedLanguage
  | AUTO
  | ENGLISH
  | HINDI
  | NEPALI
deriving DecidableEq

/-- `AppSettings` from `src/types.ts`: language preference plus the
combined hands-free / auto-paste flag. -/
structure AppSettings where
  language : SupportedLanguage
  handsFreeMode : Bool
deriving DecidableEq

/-- `TranscriptionRecord` from `src/types.ts`. `translatedText` is an
optional field in the TypeScript interface, hence `Option String`. -/
structure TranscriptionRecord where
  id : String
  originalText : String
  translatedText : Option String
  detectedLanguage : String
  timestamp : Int
deriving DecidableEq

/-- `BoloResponse` from `src/services/boloService.ts`: the shape of a
successful transcription-service reply. -/
structure BoloResponse where
  text : String
  detectedLanguage : String
  englishTranslation : String
deriving DecidableEq

/-- Outcome of a `processAudio` call: either a parsed `BoloResponse`, or a
thrown error (`processAudio` wraps every internal failure in a thrown
`Error`, see `src/services/boloService.ts` lines 121-124). -/
inductive ServiceOutcome
  | ok (result : BoloResponse)
  | error
deriving DecidableEq

/-- `SILENCE_THRESHOLD_MS` constant, `Console.tsx` line 12. -/
def SILENCE_THRESHOLD_MS : Int := 4000

/-- `SPEECH_THRESHOLD_VOLUME` constant, `Console.tsx` line 13. -/
def SPEECH_THRESHOLD_VOLUME : ℕ := 8

/-- `INITIAL_SILENCE_TIMEOUT_MS` constant, `Console.tsx` line 14. -/
def INITIAL_SILENCE_TIMEOUT_MS : Int := 10000

/-- The mutable per-segment VAD refs of the primary `Console` component:
`manualStopRef`, `lastSpeechTimestampRef`, `hasSpokenSinceStartRef`,
`startTimeRef` (`Console.tsx` lines 29-32). -/
structure VadState where
  manualStop : Bool
  lastSpeechTimestamp : Int
  hasSpokenSinceStart : Bool
  startTime : Int
deriving DecidableEq

/-- Engine-level state surrounding a recorder session: the VAD refs, the
pending chunk buffer, the `isRecording` flag, and whether a microphone
stream has been acquired (set only by `initAudio`'s `getUserMedia` call). -/
structure EngineState where
  vad : VadState
  chunks : List ℕ
  isRecording : Bool
  micAcquired : Bool
deriving DecidableEq

/-- Mean magnitude of a frequency-data frame, `Console.tsx` lines 208-210:
`sum / dataArray.length` (floating-point division in JS, exact here over
ℚ; for the empty frame JS yields `NaN`, which compares false against the
threshold, matching `0 / 0 = 0` over ℚ). -/
def avgVol (dataArray : List ℕ) : ℚ :=
  ((dataArray.foldl (· + ·) 0 : ℕ) : ℚ) / (dataArray.length : ℚ)

/-- Result of one `updateLoop` tick: the updated VAD refs and whether
`stopRecorderSession` was invoked on this tick. -/
structure TickResult where
  state : VadState
  stoppedRecorder : Bool
deriving DecidableEq

/-- One tick of the VAD & visualizer loop, `Console.tsx` lines 200-249.
The speech check (lines 214-220) runs first and may stamp
`lastSpeechTimestamp` / set `hasSpokenSinceStart`; the hands-free timeout
policy (lines 223-246) then either stops the recorder (post-speech
silence timeout) or sets the manual-stop flag and stops it (initial
silence timeout). -/
def updateLoop (settings : AppSettings) (isRecording : Bool)
    (dataArray : List ℕ) (now : Int) (s : VadState) : TickResult :=
  let s1 :=
    if (SPEECH_THRESHOLD_VOLUME : ℚ) < avgVol dataArray then
      { s with lastSpeechTimestamp := now, hasSpokenSinceStart := true }
    else s
  if isRecording ∧ settings.handsFreeMode then
    if s1.hasSpokenSinceStart then
      -- 1. Post-Speech Silence Timeout
      if SILENCE_THRESHOLD_MS < now - s1.lastSpeechTimestamp then
        { state := s1, stoppedRecorder := true }
      else
        { state := s1, stoppedRecorder := false }
    else
      -- 2. Initial Silence Timeout (user walked away or mic broken)
      if INITIAL_SILENCE_TIMEOUT_MS < now - s1.startTime then
        { state := { s1 with manualStop := true }, stoppedRecorder := true }
      else
        { state := s1, stoppedRecorder := false }
  else
    { state := s1, stoppedRecorder := false }

/-- `startRecorderSession`, `Console.tsx` lines 150-171: resets the VAD
refs and the chunk buffer, then starts the recorder (setting
`isRecording`) when it is inactive.  It never touches the microphone
stream (`getUserMedia` lives only in `initAudio`), so `micAcquired` is
untouched. -/
def startRecorderSession (now : Int) (recorderInactive : Bool)
    (e : EngineState) : EngineState :=
  let e1 := { e with
    vad := { manualStop := false, lastSpeechTimestamp := now,
             hasSpokenSinceStart := false, startTime := now },
    chunks := [] }
  if recorderInactive then { e1 with isRecording := true } else e1

/-- `initAudio`'s resource acquisition (`Console.tsx` lines 57-68): the
only place the engine acquires the microphone (`getUserMedia`). -/
def initAudio (e : EngineState) : EngineState :=
  { e with micAcquired := true }

/-- Model of the JavaScript built-in `String.prototype.trim` used by the
stop handler (`result.text.trim()`): removes whitespace from both ends of
the string.  Defined over the character list so it is kernel-executable. -/
def jsTrim (s : String) : String :=
  ⟨((s.data.dropWhile Char.isWhitespace).reverse.dropWhile
      Char.isWhitespace).reverse⟩

/-- Everything the `mediaRecorder.onstop` handler decides
(`Console.tsx` lines 89-140): whether the transcription service was
invoked, the record emitted (if any), the resulting user-visible error
message, and the restart decision — `some 100` models
`setTimeout(startRecorderSession, 100)`, `none` models
`setIsRecording(false)` (back to Idle). -/
structure StopOutcome where
  serviceCalled : Bool
  record : Option TranscriptionRecord
  errorMsg : Option String
  restartDelayMs : Option Int
deriving DecidableEq

/-- The `mediaRecorder.onstop` handler, `Console.tsx` lines 89-140.
Inputs: the settings snapshot, the finalized blob size, the VAD refs at
stop time, the outcome the service would produce if called, the current
time (`Date.now()`), and the pre-existing error message state. -/
def onstop (settings : AppSettings) (blobSize : ℕ) (s : VadState)
    (service : ServiceOutcome) (now : Int) (errorMsg : Option String) :
    StopOutcome :=
  -- Logic: Did we actually hear anything?
  let shouldProcess : Bool :=
    if settings.handsFreeMode then s.hasSpokenSinceStart else true
  let processed : Bool × Option TranscriptionRecord × Option String :=
    if shouldProcess ∧ 0 < blobSize then
      match service with
      | .ok result =>
        -- Filter empty results AND specific SILENCE token
        let cleanedText := if result.text = "" then "" else jsTrim result.text
        if 0 < cleanedText.length ∧ cleanedText ≠ "SILENCE" then
          (true,
           some { id := toString now,
                  originalText := cleanedText,
                  translatedText := some result.englishTranslation,
                  detectedLanguage := result.detectedLanguage,
                  timestamp := now },
           errorMsg)
        else
          (true, none, errorMsg)
      | .error =>
        (true, none,
         if settings.handsFreeMode then errorMsg
         else some "Could not process audio.")
    else
      (false, none, errorMsg)
  -- Loop Logic: Only restart if Hands-Free is ON AND it wasn't a manual stop
  { serviceCalled := processed.1
    record := processed.2.1
    errorMsg := processed.2.2
    restartDelayMs :=
      if settings.handsFreeMode ∧ ¬ s.manualStop then some 100 else none }

/-! ### Clipboard delivery (`secureCopy`, `App.tsx` lines 101-178) -/

/-- Behaviour of the stage-1 attempt (modern asynchronous clipboard API):
the availability check `navigator.clipboard && navigator.clipboard.writeText`
may be false (`unavailable`), the `writeText` call may reject (`failure`),
or it may resolve (`success`). -/
inductive Tier1Result
  | unavailable
  | failure
  | success
deriving DecidableEq

/-- Behaviour of a legacy `document.execCommand` attempt (stages 2 and 3):
the stage body may throw, or `execCommand` returns a boolean. -/
inductive ExecResult
  | thrown
  | returned (success : Bool)
deriving DecidableEq

/-- The host environment a `secureCopy` call runs against: one behaviour
per delivery tier. -/
structure CopyEnv where
  t1 : Tier1Result
  t2 : ExecResult
  t3 : ExecResult
deriving DecidableEq

/-- Observable trace of one `secureCopy` call: which tiers actually ran
their copy attempt, and the returned boolean. -/
structure CopyTrace where
  attempted1 : Bool
  attempted2 : Bool
  attempted3 : Bool
  result : Bool
deriving DecidableEq

/-- The stage-1 body as it may throw: `unavailable` falls through the
`if` guard without returning (`ok false`), a rejected `writeText` throws,
a resolved one returns `true`. -/
def tier1Run : Tier1Result → Except Unit Bool
  | .unavailable => .ok false
  | .failure => .error ()
  | .success => .ok true

/-- A stage-2/3 body as it may throw: an exception propagates, otherwise
the `execCommand` boolean is returned. -/
def execRun : ExecResult → Except Unit Bool
  | .thrown => .error ()
  | .returned b => .ok b

/-- The `catch` block of each stage in `secureCopy`: an exception is
caught (and logged via `console.warn`), so the stage simply reports no
success and control falls through to the next tier. -/
def caughtStage : Except Unit Bool → Bool
  | .ok b => b
  | .error _ => false

/-- `secureCopy`, `App.tsx` lines 101-178.  Stage 1 tries the modern
clipboard API (when available), stage 2 a hidden-textarea
`execCommand('copy')`, stage 3 a contentEditable-span `execCommand('copy')`;
every stage body is wrapped in `try/catch`, each later stage runs only
when no earlier stage returned `true`, and the function finally returns
`false`.  The `Except` codomain records whether an exception escapes to
the caller: every branch produces `.ok`, since all stage exceptions are
caught. -/
def secureCopy (env : CopyEnv) : Except Unit CopyTrace :=
  -- stage 1 invokes `writeText` only when the availability check passes
  let a1 : Bool := decide (env.t1 ≠ .unavailable)
  if caughtStage (tier1Run env.t1) then
    .ok { attempted1 := a1, attempted2 := false, attempted3 := false,
          result := true }
  else if caughtStage (execRun env.t2) then
    .ok { attempted1 := a1, attempted2 := true, attempted3 := false,
          result := true }
  else if caughtStage (execRun env.t3) then
    .ok { attempted1 := a1, attempted2 := true, attempted3 := true,
          result := true }
  else
    .ok { attempted1 := a1, attempted2 := true, attempted3 := true,
          result := false }

/-! ### Audio graphs (`initAudio` vs. `startRecording`) -/

/-- Web-audio node kinds appearing in the two Console variants. -/
inductive AudioNodeKind
  | mediaStreamSource
  | biquadFilterNode
  | dynamicsCompressorNode
  | analyserNode
  | mediaStreamDestination
deriving DecidableEq

/-- Which stream the `MediaRecorder` is constructed from. -/
inductive RecorderInput
  | rawMicStream
  | processedDestinationStream
deriving DecidableEq

/-- An audio-processing graph: the `connect` edges in construction order,
plus the stream handed to `new MediaRecorder(...)`. -/
structure AudioGraph where
  connections : List (AudioNodeKind × AudioNodeKind)
  recorderInput : RecorderInput
deriving DecidableEq

/-- The graph built by `initAudio` in the primary Console variant
(`Console.tsx` lines 74-82): `source.connect(analyser)` is the only edge,
and `new MediaRecorder(stream)` records the raw microphone stream. -/
def initAudioGraph : AudioGraph :=
  { connections := [(.mediaStreamSource, .analyserNode)],
    recorderInput := .rawMicStream }

/-- The graph built by `startRecording` in the second Console variant
(`Console.tsx` second document, `startRecording`): source → high-pass
filter → compressor → analyser → destination, with
`new MediaRecorder(destination.stream)` recording the processed output. -/
def startRecordingGraph : AudioGraph :=
  { connections :=
      [(.mediaStreamSource, .biquadFilterNode),
       (.biquadFilterNode, .dynamicsCompressorNode),
       (.dynamicsCompressorNode, .analyserNode),
       (.analyserNode, .mediaStreamDestination)],
    recorderInput := .processedDestinationStream }

/-- High-pass filter parameters set in `startRecording`. -/
structure FilterConfig where
  typ : String
  frequency : Int
deriving DecidableEq

/-- Dynamics-compressor parameters set in `startRecording`. -/
structure CompressorConfig where
  threshold : Int
  knee : Int
  ratio : Int
  attack : ℚ
  release : ℚ
deriving DecidableEq

/-- The `BiquadFilter` configuration of `startRecording`: `highpass`,
cutoff 85 Hz. -/
def startRecordingFilter : FilterConfig :=
  { typ := "highpass", frequency := 85 }

/-- The `DynamicsCompressor` configuration of `startRecording`. -/
def startRecordingCompressor : CompressorConfig :=
  { threshold := -50, knee := 40, ratio := 12, attack := 0,
    release := 1/4 }

/-- The conditioning chain as the specification words it (spec §4.1):
high-pass filter → dynamics compressor → spectral analyzer → encoder
sink, fed from the microphone source.  A spec-side definition used only
for comparison against the graphs built by the source. -/
def specConditioningChain : List (AudioNodeKind × AudioNodeKind) :=
  [(.mediaStreamSource, .biquadFilterNode),
   (.biquadFilterNode, .dynamicsCompressorNode),
   (.dynamicsCompressorNode, .analyserNode),
   (.analyserNode, .mediaStreamDestination)]

/-! ### Helper lemmas -/

/-- Trimming the empty string yields the empty string. -/
theorem jsTrim_empty : jsTrim "" = "" := rfl

/-- The `result.text ? result.text.trim() : ""` guard in the stop handler
is just trimming: the guard only short-circuits the empty string, whose
trim is itself empty. -/
theorem cleanedText_eq_jsTrim (t : String) :
    (if t = "" then "" else jsTrim t) = jsTrim t := by
  by_cases h : t = "" <;> simp [h, jsTrim_empty]

/-- A string has length zero exactly when it is empty. -/
theorem string_length_eq_zero_iff (s : String) : s.length = 0 ↔ s = "" := by
  cases s with
  | mk data =>
    simp [String.length, List.length_eq_zero, String.ext_iff]

/-- A string has positive length exactly when it is non-empty. -/
theorem string_pos_length_iff (s : String) : 0 < s.length ↔ s ≠ "" := by
  rw [Nat.pos_iff_ne_zero]
  exact not_congr (string_length_eq_zero_iff s)

/-- Evaluation of the stop handler on a successful service response when
the dispatch gate is open: the service is called, the error state is
untouched, and the record is governed by the empty/sentinel filter. -/
theorem onstop_ok_eval (settings : AppSettings) (blobSize : ℕ)
    (s : VadState) (result : BoloResponse) (now : Int) (err : Option String)
    (hsh : (if settings.handsFreeMode then s.hasSpokenSinceStart else true)
      = true)
    (hB : 0 < blobSize) :
    (onstop settings blobSize s (.ok result) now err).serviceCalled = true
  ∧ (onstop settings blobSize s (.ok result) now err).errorMsg = err
  ∧ (onstop settings blobSize s (.ok result) now err).record =
      (if 0 < (jsTrim result.text).length ∧ jsTrim result.text ≠ "SILENCE"
       then some { id := toString now,
                   originalText := jsTrim result.text,
                   translatedText := some result.englishTranslation,
                   detectedLanguage := result.detectedLanguage,
                   timestamp := now }
       else none) := by
  refine ⟨?_, ?_, ?_⟩ <;>
    simp only [onstop, hsh, cleanedText_eq_jsTrim, hB, and_true, if_true,
      true_and, eq_self_iff_true] <;>
    split <;> rfl

/-- A one-bin zero-magnitude frame classifies below the speech
threshold. -/
theorem avgVol_zero_bin :
    ¬ (SPEECH_THRESHOLD_VOLUME : ℚ) < avgVol [0] := by
  norm_num [avgVol, SPEECH_THRESHOLD_VOLUME]

/-- A frame of two full-scale bins classifies above the speech
threshold. -/
theorem avgVol_loud_bins :
    (SPEECH_THRESHOLD_VOLUME : ℚ) < avgVol [255, 255] := by
  norm_num [avgVol, SPEECH_THRESHOLD_VOLUME]

/-! ### Claims -/

/-- Claim C1: in the stop handler, when hands-free mode is on the
finalized audio is sent to the transcription service only if
`hasSpokenSinceStart` is true for the segment — otherwise the network
call is skipped entirely and no record is emitted; when hands-free mode
is off (manual mode), every non-empty capture is dispatched regardless of
the VAD state. -/
theorem c1_dispatch_gating (settings : AppSettings) (blobSize : ℕ)
    (s : VadState) (service : ServiceOutcome) (now : Int)
    (err : Option String) :
    (settings.handsFreeMode = true → s.hasSpokenSinceStart = false →
        (onstop settings blobSize s service now err).serviceCalled = false
      ∧ (onstop settings blobSize s service now err).record = none)
  ∧ (settings.handsFreeMode = false → 0 < blobSize →
        (onstop settings blobSize s service now err).serviceCalled = true) := by
  constructor
  · intro hHF hSp
    simp [onstop, hHF, hSp]
  · intro hHF hB
    cases service <;> simp [onstop, hHF, hB, apply_ite Prod.fst]

/-- Witness for C1 at concrete inputs: hands-free with no speech skips
the call, manual mode with a non-empty blob makes it. -/
theorem c1_dispatch_gating_witness :
    (onstop ⟨SupportedLanguage.AUTO, true⟩ 5
        ⟨false, 0, false, 0⟩ ServiceOutcome.error 0 none).serviceCalled = false
  ∧ (onstop ⟨SupportedLanguage.AUTO, false⟩ 5
        ⟨false, 0, false, 0⟩ ServiceOutcome.error 0 none).serviceCalled = true := by
  refine ⟨((c1_dispatch_gating ⟨SupportedLanguage.AUTO, true⟩ 5
      ⟨false, 0, false, 0⟩ ServiceOutcome.error 0 none).1 rfl rfl).1, ?_⟩
  exact (c1_dispatch_gating ⟨SupportedLanguage.AUTO, false⟩ 5
      ⟨false, 0, false, 0⟩ ServiceOutcome.error 0 none).2 rfl (by decide)

/-- Claim C4: for every service response handled by the stop handler, the
returned text is trimmed; when the trimmed text is empty or equals the
reserved sentinel "SILENCE" no record is emitted and no error is
surfaced, and a record is constructed exactly when the trimmed text is
non-empty and not the sentinel. -/
theorem c4_empty_and_sentinel_filter (settings : AppSettings)
    (blobSize : ℕ) (s : VadState) (result : BoloResponse) (now : Int)
    (err : Option String)
    (hSp : settings.handsFreeMode = true → s.hasSpokenSinceStart = true)
    (hB : 0 < blobSize) :
    (onstop settings blobSize s (.ok result) now err).errorMsg = err
  ∧ ((onstop settings blobSize s (.ok result) now err).record = none ↔
      (jsTrim result.text = "" ∨ jsTrim result.text = "SILENCE")) := by
  have hsh : (if settings.handsFreeMode then s.hasSpokenSinceStart else true)
      = true := by
    cases hf : settings.handsFreeMode <;> simp [hf, hSp]
  obtain ⟨-, hmsg, hrec⟩ :=
    onstop_ok_eval settings blobSize s result now err hsh hB
  refine ⟨hmsg, ?_⟩
  rw [hrec]
  by_cases he : jsTrim result.text = ""
  · have h0 : ¬ 0 < (jsTrim result.text).length := by
      simp [string_pos_length_iff, he]
    rw [if_neg (fun h => h0 h.1)]
    simp [he]
  · by_cases hsent : jsTrim result.text = "SILENCE"
    · rw [if_neg (fun h => h.2 hsent)]
      simp [hsent]
    · rw [if_pos ⟨(string_pos_length_iff _).mpr he, hsent⟩]
      simp [he, hsent]

/-- Witness for C4 at concrete inputs: a "SILENCE" response yields no
record and leaves the error state alone. -/
theorem c4_empty_and_sentinel_filter_witness :
    (onstop ⟨SupportedLanguage.AUTO, true⟩ 5 ⟨false, 0, true, 0⟩
        (.ok ⟨"SILENCE", "English", ""⟩) 7 none).record = none := by
  have h := c4_empty_and_sentinel_filter ⟨SupportedLanguage.AUTO, true⟩ 5
      ⟨false, 0, true, 0⟩ ⟨"SILENCE", "English", ""⟩ 7 none
      (fun _ => rfl) (by decide)
  exact h.2.mpr (Or.inr (by decide))

/-- Claim C5: when the transcription-service call throws, the stop
handler emits no record; in manual mode it sets a user-visible error
message, while in hands-free mode the error state is untouched (log
only) and — absent a manual stop — the continuous loop still schedules
its restart. -/
theorem c5_service_failure_modes (settings : AppSettings) (blobSize : ℕ)
    (s : VadState) (now : Int) (err : Option String)
    (hB : 0 < blobSize)
    (hSp : settings.handsFreeMode = true → s.hasSpokenSinceStart = true) :
    (onstop settings blobSize s .error now err).record = none
  ∧ (onstop settings blobSize s .error now err).serviceCalled = true
  ∧ (settings.handsFreeMode = false →
      (onstop settings blobSize s .error now err).errorMsg =
        some "Could not process audio.")
  ∧ (settings.handsFreeMode = true →
      (onstop settings blobSize s .error now err).errorMsg = err)
  ∧ (settings.handsFreeMode = true → s.manualStop = false →
      (onstop settings blobSize s .error now err).restartDelayMs =
        some 100) := by
  have hsh : (if settings.handsFreeMode then s.hasSpokenSinceStart else true)
      = true := by
    cases hf : settings.handsFreeMode <;> simp [hf, hSp]
  refine ⟨?_, ?_, ?_, ?_, ?_⟩
  · simp [onstop, hsh, hB]
  · simp [onstop, hsh, hB]
  · intro hf
    simp [onstop, hf, hB]
  · intro hf
    simp [onstop, hf, hSp hf, hB]
  · intro hf hm
    simp [onstop, hf, hm]

/-- Witness for C5 at concrete inputs: a failing call in hands-free mode
emits no record, leaves the error state untouched, and still restarts. -/
theorem c5_service_failure_modes_witness :
    (onstop ⟨SupportedLanguage.AUTO, true⟩ 5 ⟨false, 0, true, 0⟩
        ServiceOutcome.error 0 none).record = none
  ∧ (onstop ⟨SupportedLanguage.AUTO, true⟩ 5 ⟨false, 0, true, 0⟩
        ServiceOutcome.error 0 none).errorMsg = none
  ∧ (onstop ⟨SupportedLanguage.AUTO, true⟩ 5 ⟨false, 0, true, 0⟩
        ServiceOutcome.error 0 none).restartDelayMs = some 100 := by
  have h := c5_service_failure_modes ⟨SupportedLanguage.AUTO, true⟩ 5
      ⟨false, 0, true, 0⟩ 0 none (by decide) (fun _ => rfl)
  exact ⟨h.1, h.2.2.2.1 rfl, h.2.2.2.2 rfl rfl⟩

/-- Claim C8: a record constructed from a successful service response
that passes the filter preserves `detectedLanguage` verbatim, preserves
`englishTranslation` verbatim in `translatedText`, carries the trimmed
response text in `originalText`, and uses the current time as both the
fresh identifier and the timestamp. -/
theorem c8_record_preserves_fields (settings : AppSettings) (blobSize : ℕ)
    (s : VadState) (result : BoloResponse) (now : Int) (err : Option String)
    (hSp : settings.handsFreeMode = true → s.hasSpokenSinceStart = true)
    (hB : 0 < blobSize)
    (hNE : jsTrim result.text ≠ "")
    (hSent : jsTrim result.text ≠ "SILENCE") :
    (onstop settings blobSize s (.ok result) now err).record =
      some { id := toString now,
             originalText := jsTrim result.text,
             translatedText := some result.englishTranslation,
             detectedLanguage := result.detectedLanguage,
             timestamp := now } := by
  have hsh : (if settings.handsFreeMode then s.hasSpokenSinceStart else true)
      = true := by
    cases hf : settings.handsFreeMode <;> simp [hf, hSp]
  obtain ⟨-, -, hrec⟩ :=
    onstop_ok_eval settings blobSize s result now err hsh hB
  rw [hrec, if_pos ⟨(string_pos_length_iff _).mpr hNE, hSent⟩]

/-- Witness for C8 at concrete inputs: the spec's manual-mode scenario
with text "  Hello there.  " yields the trimmed record. -/
theorem c8_record_preserves_fields_witness :
    (onstop ⟨SupportedLanguage.AUTO, false⟩ 5 ⟨false, 0, false, 0⟩
        (.ok ⟨"  Hello there.  ", "English", "Hello there."⟩) 7 none).record =
      some ⟨"7", "Hello there.", some "Hello there.", "English", 7⟩ := by
  have h := c8_record_preserves_fields ⟨SupportedLanguage.AUTO, false⟩ 5
      ⟨false, 0, false, 0⟩ ⟨"  Hello there.  ", "English", "Hello there."⟩ 7
      none (fun hf => by cases hf) (by decide) (by decide) (by decide)
  rw [h]
  rfl

/-- Claim C10 (implicit): in both modes, a finalized blob of size 0 makes
no service call, emits no record, surfaces no error, and leaves only the
usual restart decision to apply. -/
theorem c10_empty_blob_skip (settings : AppSettings) (s : VadState)
    (service : ServiceOutcome) (now : Int) (err : Option String) :
    (onstop settings 0 s service now err).serviceCalled = false
  ∧ (onstop settings 0 s service now err).record = none
  ∧ (onstop settings 0 s service now err).errorMsg = err
  ∧ (onstop settings 0 s service now err).restartDelayMs =
      (if settings.handsFreeMode ∧ ¬ s.manualStop then some 100
       else none) := by
  simp [onstop]

/-- The `hasSpokenSinceStart` ref after one VAD tick: set by a speech
sample, otherwise untouched — no branch of the tick clears it. -/
theorem updateLoop_hasSpoken_eq (settings : AppSettings) (isRec : Bool)
    (dataArray : List ℕ) (now : Int) (s : VadState) :
    (updateLoop settings isRec dataArray now s).state.hasSpokenSinceStart =
      (if (SPEECH_THRESHOLD_VOLUME : ℚ) < avgVol dataArray then true
       else s.hasSpokenSinceStart) := by
  by_cases hsp : (SPEECH_THRESHOLD_VOLUME : ℚ) < avgVol dataArray <;>
    simp only [updateLoop, hsp, if_true, if_false] <;>
    repeat' split
  all_goals rfl

/-- Claim C2: in hands-free mode, when speech was detected in the
segment and the silence span on a silent tick exceeds the 4000 ms
post-speech threshold, the VAD tick stops the recorder (leaving the VAD
refs untouched); the stop handler then dispatches the utterance, and —
unless the manual-stop flag was set before the handler resolves — it
schedules the automatic restart after the 100 ms settle delay, whose
restart path (`startRecorderSession`) never re-acquires the
microphone. -/
theorem c2_postspeech_timeout_restart (settings : AppSettings)
    (dataArray : List ℕ) (now now2 now3 : Int) (s : VadState)
    (blobSize : ℕ) (service : ServiceOutcome) (err : Option String)
    (b : Bool) (e : EngineState)
    (hHF : settings.handsFreeMode = true)
    (hSil : ¬ (SPEECH_THRESHOLD_VOLUME : ℚ) < avgVol dataArray)
    (hSp : s.hasSpokenSinceStart = true)
    (hT : SILENCE_THRESHOLD_MS < now - s.lastSpeechTimestamp)
    (hB : 0 < blobSize) :
    (updateLoop settings true dataArray now s).stoppedRecorder = true
  ∧ (updateLoop settings true dataArray now s).state = s
  ∧ (onstop settings blobSize s service now2 err).serviceCalled = true
  ∧ (s.manualStop = false →
      (onstop settings blobSize s service now2 err).restartDelayMs =
        some 100)
  ∧ (s.manualStop = true →
      (onstop settings blobSize s service now2 err).restartDelayMs = none)
  ∧ (startRecorderSession now3 b e).micAcquired = e.micAcquired := by
  refine ⟨?_, ?_, ?_, ?_, ?_, ?_⟩
  · simp [updateLoop, hSil, hHF, hSp, hT]
  · simp [updateLoop, hSil, hHF, hSp, hT]
  · cases service <;> simp [onstop, hHF, hSp, hB, apply_ite Prod.fst]
  · intro hm
    simp [onstop, hHF, hm]
  · intro hm
    simp [onstop, hHF, hm]
  · cases b <;> simp [startRecorderSession]

/-- Witness for C2 at concrete inputs: silence at 5000 ms after speech
at 0 ms stops the recorder, and the stop handler schedules the 100 ms
restart. -/
theorem c2_postspeech_timeout_restart_witness :
    (updateLoop ⟨SupportedLanguage.AUTO, true⟩ true [0] 5000
        ⟨false, 0, true, 0⟩).stoppedRecorder = true
  ∧ (onstop ⟨SupportedLanguage.AUTO, true⟩ 5 ⟨false, 0, true, 0⟩
        ServiceOutcome.error 6000 none).restartDelayMs = some 100 := by
  have h := c2_postspeech_timeout_restart ⟨SupportedLanguage.AUTO, true⟩
      [0] 5000 6000 0 ⟨false, 0, true, 0⟩ 5 ServiceOutcome.error none true
      ⟨⟨false, 0, false, 0⟩, [], false, true⟩ rfl avgVol_zero_bin rfl
      (by decide) (by decide)
  exact ⟨h.1, h.2.2.2.1 rfl⟩

/-- Claim C3: in hands-free mode, when no speech was ever detected and a
silent tick arrives more than 10000 ms after segment start, the tick
sets the manual-stop flag and stops the recorder; the stop handler then
makes no service call, emits no record, and schedules no restart
(returning the engine to Idle). -/
theorem c3_initial_silence_pause (settings : AppSettings)
    (dataArray : List ℕ) (now now2 : Int) (s : VadState)
    (blobSize : ℕ) (service : ServiceOutcome) (err : Option String)
    (hHF : settings.handsFreeMode = true)
    (hSil : ¬ (SPEECH_THRESHOLD_VOLUME : ℚ) < avgVol dataArray)
    (hSp : s.hasSpokenSinceStart = false)
    (hT : INITIAL_SILENCE_TIMEOUT_MS < now - s.startTime) :
    (updateLoop settings true dataArray now s).stoppedRecorder = true
  ∧ (updateLoop settings true dataArray now s).state.manualStop = true
  ∧ (onstop settings blobSize (updateLoop settings true dataArray now s).state
        service now2 err).serviceCalled = false
  ∧ (onstop settings blobSize (updateLoop settings true dataArray now s).state
        service now2 err).record = none
  ∧ (onstop settings blobSize (updateLoop settings true dataArray now s).state
        service now2 err).restartDelayMs = none := by
  have hstate : (updateLoop settings true dataArray now s).state =
      { s with manualStop := true } := by
    simp [updateLoop, hSil, hHF, hSp, hT]
  refine ⟨?_, ?_, ?_, ?_, ?_⟩
  · simp [updateLoop, hSil, hHF, hSp, hT]
  · rw [hstate]
  · rw [hstate]
    simp [onstop, hHF, hSp]
  · rw [hstate]
    simp [onstop, hHF, hSp]
  · rw [hstate]
    simp [onstop, hHF]

/-- Witness for C3 at concrete inputs: a silent tick at 10001 ms into a
speechless hands-free segment stops everything with no dispatch and no
restart. -/
theorem c3_initial_silence_pause_witness :
    (updateLoop ⟨SupportedLanguage.AUTO, true⟩ true [0] 10001
        ⟨false, 10001, false, 0⟩).stoppedRecorder = true
  ∧ (onstop ⟨SupportedLanguage.AUTO, true⟩ 5
        (updateLoop ⟨SupportedLanguage.AUTO, true⟩ true [0] 10001
          ⟨false, 10001, false, 0⟩).state
        ServiceOutcome.error 10200 none).record = none
  ∧ (onstop ⟨SupportedLanguage.AUTO, true⟩ 5
        (updateLoop ⟨SupportedLanguage.AUTO, true⟩ true [0] 10001
          ⟨false, 10001, false, 0⟩).state
        ServiceOutcome.error 10200 none).restartDelayMs = none := by
  have h := c3_initial_silence_pause ⟨SupportedLanguage.AUTO, true⟩ [0]
      10001 10200 ⟨false, 10001, false, 0⟩ 5 ServiceOutcome.error none rfl
      avgVol_zero_bin rfl (by decide)
  exact ⟨h.1, h.2.2.2.1, h.2.2.2.2⟩

/-- Claim C6: `secureCopy` tries its three tiers strictly in order — a
tier runs only when every earlier tier was unavailable or failed, the
first success short-circuits the rest, the result is `false` only after
all three were tried — and no exception ever escapes to the caller. -/
theorem c6_clipboard_tier_order (env : CopyEnv) :
    ∃ t : CopyTrace, secureCopy env = .ok t
  ∧ (t.result = true ↔
      (env.t1 = .success ∨ env.t2 = .returned true ∨
        env.t3 = .returned true))
  ∧ (t.attempted2 = true ↔ env.t1 ≠ .success)
  ∧ (t.attempted3 = true ↔
      (env.t1 ≠ .success ∧ env.t2 ≠ .returned true))
  ∧ (env.t1 = .success → t.attempted2 = false ∧ t.attempted3 = false)
  ∧ (env.t2 = .returned true → t.attempted3 = false)
  ∧ (t.result = false → t.attempted2 = true ∧ t.attempted3 = true) := by
  obtain ⟨t1, t2, t3⟩ := env
  cases t1 <;> rcases t2 with _ | b2 <;> rcases t3 with _ | b3 <;>
    first
    | (cases b2 <;> cases b3 <;> exact ⟨_, rfl, by decide⟩)
    | (cases b2 <;> exact ⟨_, rfl, by decide⟩)
    | (cases b3 <;> exact ⟨_, rfl, by decide⟩)
    | exact ⟨_, rfl, by decide⟩

/-- Witness for C6 at a concrete environment: tier 1 rejects, tier 2
returns false, tier 3 succeeds — the call reports `true` with tier 3
attempted. -/
theorem c6_clipboard_tier_order_witness :
    ∃ t : CopyTrace,
      secureCopy ⟨.failure, .returned false, .returned true⟩ = .ok t
    ∧ t.result = true ∧ t.attempted3 = true := by
  obtain ⟨t, ht, hres, -, hat3, -⟩ :=
    c6_clipboard_tier_order ⟨.failure, .returned false, .returned true⟩
  exact ⟨t, ht, hres.mpr (Or.inr (Or.inr rfl)),
    hat3.mpr ⟨by decide, by decide⟩⟩

/-- Claim C7 fails on the primary Console variant: `initAudio` connects
the microphone source directly to the analyser (no high-pass filter, no
compressor) and constructs the `MediaRecorder` from the raw microphone
stream, not from the output of the claimed conditioning chain. -/
theorem c7_chain_counterexample :
    initAudioGraph.connections ≠ specConditioningChain
  ∧ initAudioGraph.recorderInput = RecorderInput.rawMicStream :=
  ⟨by decide, rfl⟩

/-- Claim C7 as amended: the fixed ordered conditioning chain — source →
high-pass filter (85 Hz) → dynamics compressor (threshold −50 dB, ratio
12:1) → analyser → encoder sink — with the recorder consuming the chain
output is built only by the `startRecording` pipeline of the second
Console variant; the primary variant's `initAudio` connects the source
directly to the analyser and records the raw microphone stream. -/
theorem c7_chain_amended :
    startRecordingGraph.connections = specConditioningChain
  ∧ startRecordingGraph.recorderInput =
      RecorderInput.processedDestinationStream
  ∧ startRecordingFilter.typ = "highpass"
  ∧ startRecordingFilter.frequency = 85
  ∧ startRecordingCompressor.threshold = -50
  ∧ startRecordingCompressor.ratio = 12
  ∧ initAudioGraph.connections =
      [(AudioNodeKind.mediaStreamSource, AudioNodeKind.analyserNode)]
  ∧ initAudioGraph.recorderInput = RecorderInput.rawMicStream :=
  ⟨rfl, rfl, rfl, rfl, rfl, rfl, rfl, rfl⟩

/-- Claim C9: within a segment `hasSpokenSinceStart` is monotonic — if it
is already true the tick keeps it true, a silent tick leaves it
unchanged, a speech tick sets it to true — and it is reset to false only
by `startRecorderSession` at the start of the next segment. -/
theorem c9_hasSpoken_monotone (settings : AppSettings) (isRec b : Bool)
    (dataArray : List ℕ) (now now2 : Int) (s : VadState)
    (e : EngineState) :
    (s.hasSpokenSinceStart = true →
      (updateLoop settings isRec dataArray now s).state.hasSpokenSinceStart
        = true)
  ∧ (¬ (SPEECH_THRESHOLD_VOLUME : ℚ) < avgVol dataArray →
      (updateLoop settings isRec dataArray now s).state.hasSpokenSinceStart
        = s.hasSpokenSinceStart)
  ∧ ((SPEECH_THRESHOLD_VOLUME : ℚ) < avgVol dataArray →
      (updateLoop settings isRec dataArray now s).state.hasSpokenSinceStart
        = true)
  ∧ (startRecorderSession now2 b e).vad.hasSpokenSinceStart = false := by
  refine ⟨?_, ?_, ?_, ?_⟩
  · intro h
    rw [updateLoop_hasSpoken_eq]
    split <;> simp [h]
  · intro hn
    rw [updateLoop_hasSpoken_eq, if_neg hn]
  · intro hp
    rw [updateLoop_hasSpoken_eq, if_pos hp]
  · cases b <;> simp [startRecorderSession]

/-- Witness for C9 at concrete inputs: a loud tick sets the flag, and a
session restart clears it. -/
theorem c9_hasSpoken_monotone_witness :
    (updateLoop ⟨SupportedLanguage.AUTO, true⟩ true [255, 255] 0
        ⟨false, 0, false, 0⟩).state.hasSpokenSinceStart = true
  ∧ (startRecorderSession 9 true
        ⟨⟨true, 3, true, 1⟩, [1], true, true⟩).vad.hasSpokenSinceStart
      = false := by
  have h := c9_hasSpoken_monotone ⟨SupportedLanguage.AUTO, true⟩ true true
      [255, 255] 0 9 ⟨false, 0, false, 0⟩ ⟨⟨true, 3, true, 1⟩, [1], true, true⟩
  exact ⟨h.2.2.1 avgVol_loud_bins, h.2.2.2⟩

end Bolo
